import Mathlib

/-!
Shallow embedding of the `ash-alloc` Vulkan memory allocator library
(`src/lib.rs`): geometry helpers, allocation-type predicates, memory-type
selection, memory-block creation, and the allocation-handle accessors,
together with theorems settling the specification claims about them.

Machine integers (`u64`, `u32`) are modelled as `Nat`; bitwise operations
use `Nat.land` / `Nat.lor` / `Nat.shiftLeft`, and the 64-bit complement
`!x` is modelled as `2^64 - 1 - x` (valid for `x < 2^64`, which is the
range of every `u64` value).
-/

namespace AshAlloc

/-- 64-bit bitwise complement `!x` of a `u64` value, modelled on `Nat`. -/
def u64_not (x : Nat) : Nat := 2 ^ 64 - 1 - x

/-- `fn align_down(offset: u64, alignment: u64) -> u64`:
`offset & !(alignment - 1u64)` (src/lib.rs lines 23-26). -/
def align_down (offset alignment : Nat) : Nat :=
  offset &&& u64_not (alignment - 1)

/-- `fn align_up(offset: u64, alignment: u64) -> u64`:
`(offset + (alignment - 1u64)) & !(alignment - 1u64)` (src/lib.rs lines 28-31). -/
def align_up (offset alignment : Nat) : Nat :=
  (offset + (alignment - 1)) &&& u64_not (alignment - 1)

/-- `fn is_on_same_page(offset_lhs: u64, size_lhs: u64, offset_rhs: u64, page_size: u64) -> bool`
(src/lib.rs lines 33-45).  The early return fires only when
`offset_lhs == 0 && size_lhs == 0`. -/
def is_on_same_page (offset_lhs size_lhs offset_rhs page_size : Nat) : Bool :=
  if offset_lhs == 0 && size_lhs == 0 then
    false
  else
    let end_lhs := offset_lhs + size_lhs - 1
    let end_page_lhs := align_down end_lhs page_size
    let start_rhs := offset_rhs
    let start_page_rhs := align_down start_rhs page_size
    end_page_lhs == start_page_rhs

/-- `fn has_granularity_conflict(lhs_is_linear: bool, rhs_is_linear: bool) -> bool`
(src/lib.rs lines 47-50). -/
def has_granularity_conflict (lhs_is_linear rhs_is_linear : Bool) : Bool :=
  lhs_is_linear != rhs_is_linear

/-- `enum AllocationType` (src/lib.rs lines 107-116). -/
inductive AllocationType where
  | Buffer
  | OptimalImage
  | LinearImage
deriving DecidableEq, Repr

/-- `AllocationType::is_linear` (src/lib.rs lines 118-127). -/
def AllocationType.is_linear : AllocationType → Bool
  | .Buffer => true
  | .OptimalImage => false
  | .LinearImage => true

/-- `enum MemoryLocation` (src/lib.rs lines 129-138). -/
inductive MemoryLocation where
  | CpuToGpu
  | GpuOnly
  | GpuToCpu
deriving DecidableEq, Repr

/-- The error enum of the library.  Its declaration lives in `src/error.rs`,
which is not part of the provided sources; the three variants below are the
ones constructed in `src/lib.rs` (`OutOfMemory`, `FailedToMap`,
`NoCompatibleMemoryTypeFound`), matching the spec's error kinds
*out-of-memory*, *failed-to-map* and *no-compatible-memory-type*. -/
inductive AllocatorError where
  | OutOfMemory
  | FailedToMap
  | NoCompatibleMemoryTypeFound
deriving DecidableEq, Repr

/-- `vk::MemoryPropertyFlags::DEVICE_LOCAL` (bit 0 of the Vulkan flag word). -/
def DEVICE_LOCAL : Nat := 1

/-- `vk::MemoryPropertyFlags::HOST_VISIBLE` (bit 1). -/
def HOST_VISIBLE : Nat := 2

/-- `vk::MemoryPropertyFlags::HOST_COHERENT` (bit 2). -/
def HOST_COHERENT : Nat := 4

/-- `vk::MemoryPropertyFlags::HOST_CACHED` (bit 3). -/
def HOST_CACHED : Nat := 8

/-- `vk::MemoryPropertyFlags::contains`: `self & other == other`. -/
def flags_contains (self other : Nat) : Bool :=
  Nat.land self other == other

/-- `vk::MemoryType`: property flags of one memory type (the heap index is
irrelevant to the claims and omitted). -/
structure MemoryType where
  property_flags : Nat
deriving DecidableEq, Repr

/-- `vk::PhysicalDeviceMemoryProperties`: the table of memory types.  The
Vulkan struct holds a fixed 32-entry array of which the first
`memory_type_count` entries are meaningful; the array is modelled as a list. -/
structure PhysicalDeviceMemoryProperties where
  memory_type_count : Nat
  memory_types : List MemoryType
deriving DecidableEq, Repr

/-- `fn memory_type_is_compatible(memory_type_index: usize, memory_type_bits: u32) -> bool`:
`(1 << memory_type_index) & memory_type_bits != 0` (src/lib.rs lines 268-271). -/
def memory_type_is_compatible (memory_type_index memory_type_bits : Nat) : Bool :=
  Nat.land (1 <<< memory_type_index) memory_type_bits != 0

/-- The predicate tested for each enumerated memory type inside
`query_memory_type_index`'s `find` closure (src/lib.rs lines 261-264). -/
def type_ok (memory_type_bits memory_property_flags index : Nat) (t : MemoryType) : Bool :=
  memory_type_is_compatible index memory_type_bits &&
    flags_contains t.property_flags memory_property_flags

/-- Recursive scan underlying `query_memory_type_index`: walk the list of
memory types carrying the running index, returning the first index whose
type satisfies `type_ok`.  This is the `iter().enumerate().find(...)` of
src/lib.rs lines 258-265 with the enumeration made explicit. -/
def query_from (types : List MemoryType) (index memory_type_bits memory_property_flags : Nat) :
    Option Nat :=
  match types with
  | [] => none
  | t :: rest =>
    if type_ok memory_type_bits memory_property_flags index t then
      some index
    else
      query_from rest (index + 1) memory_type_bits memory_property_flags

/-- `fn query_memory_type_index` (src/lib.rs lines 253-266): scan
`memory_types[..memory_type_count]` for the first compatible type whose
flags contain `memory_property_flags`. -/
def query_memory_type_index (memory_properties : PhysicalDeviceMemoryProperties)
    (memory_type_bits memory_property_flags : Nat) : Option Nat :=
  query_from (memory_properties.memory_types.take memory_properties.memory_type_count)
    0 memory_type_bits memory_property_flags

/-- The preferred ("fast path") property-flag set of the first pass of
`find_memory_type_index` (src/lib.rs lines 214-226). -/
def preferred_flags : MemoryLocation → Nat
  | .GpuOnly => DEVICE_LOCAL
  | .CpuToGpu => Nat.lor (Nat.lor HOST_VISIBLE HOST_COHERENT) DEVICE_LOCAL
  | .GpuToCpu => Nat.lor (Nat.lor HOST_VISIBLE HOST_COHERENT) HOST_CACHED

/-- The relaxed property-flag set of the second pass of
`find_memory_type_index` (src/lib.rs lines 233-241). -/
def relaxed_flags : MemoryLocation → Nat
  | .GpuOnly => DEVICE_LOCAL
  | .CpuToGpu => Nat.lor HOST_VISIBLE HOST_COHERENT
  | .GpuToCpu => Nat.lor HOST_VISIBLE HOST_COHERENT

/-- `fn find_memory_type_index` (src/lib.rs lines 208-251): query with the
preferred flags, retry with the relaxed flags when the first pass found
nothing, and fail with `NoCompatibleMemoryTypeFound` when both passes fail. -/
def find_memory_type_index (memory_properties : PhysicalDeviceMemoryProperties)
    (location : MemoryLocation) (memory_type_bits : Nat) : Except AllocatorError Nat :=
  let first :=
    query_memory_type_index memory_properties memory_type_bits (preferred_flags location)
  let result :=
    match first with
    | some x => some x
    | none =>
      query_memory_type_index memory_properties memory_type_bits (relaxed_flags location)
  match result with
  | some x => Except.ok x
  | none => Except.error AllocatorError.NoCompatibleMemoryTypeFound

/-- Specification-level predicate: memory type `i` is a hit for permitted
mask `bits` and required flag set `req` — its index is below
`memory_type_count`, it exists in the table, its bit is set in `bits`, and
its property flags contain `req`. -/
def good_type (props : PhysicalDeviceMemoryProperties) (bits req i : Nat) : Bool :=
  decide (i < props.memory_type_count) &&
    (match props.memory_types[i]? with
     | some t => type_ok bits req i t
     | none => false)

/-- Result of a single preferred-set scan, used to compare
`find_memory_type_index` against a one-pass policy (claim C10). -/
def single_pass_result (memory_properties : PhysicalDeviceMemoryProperties)
    (memory_type_bits memory_property_flags : Nat) : Except AllocatorError Nat :=
  match query_memory_type_index memory_properties memory_type_bits memory_property_flags with
  | some x => Except.ok x
  | none => Except.error AllocatorError.NoCompatibleMemoryTypeFound

/-- Build-configuration predicate modelling the source's
`cfg!(features = "vk-buffer-device-address")` (src/lib.rs line 164).  The
argument records whether the `vk-buffer-device-address` build feature is
actually enabled; the source, however, tests the cfg key `features` — not
`feature` — which is never defined, so the predicate evaluates to `false`
regardless of the enabled feature set. -/
def cfg_features_vk_buffer_device_address (vk_buffer_device_address_enabled : Bool) : Bool :=
  false

/-- The observable content of the `vk::MemoryAllocateInfo` built by
`MemoryBlock::new` (src/lib.rs lines 156-168): allocation size, memory-type
index, and whether a `MemoryAllocateFlagsInfo` carrying
`MemoryAllocateFlags::DEVICE_ADDRESS` is chained onto it. -/
structure MemoryAllocateInfo where
  allocation_size : Nat
  memory_type_index : Nat
  device_address_flag : Bool
deriving DecidableEq, Repr

/-- The `alloc_info` value that `MemoryBlock::new` passes to
`allocate_memory`, as a function of the requested size, the memory-type
index, and the enabled build features (src/lib.rs lines 156-168). -/
def build_memory_allocate_info (size memory_type_index : Nat)
    (vk_buffer_device_address_enabled : Bool) : MemoryAllocateInfo :=
  { allocation_size := size,
    memory_type_index := memory_type_index,
    device_address_flag :=
      cfg_features_vk_buffer_device_address vk_buffer_device_address_enabled }

/-- One call into the device memory provider, recorded in order of
occurrence so side effects of `MemoryBlock::new` are observable. -/
inductive DeviceOp where
  | allocate_memory (size memory_type_index : Nat)
  | map_memory (memory : Nat)
  | free_memory (memory : Nat)
deriving DecidableEq, Repr

/-- The device memory provider as seen by `MemoryBlock::new`: the outcome
of `allocate_memory` (a device-memory handle on success) and the outcome of
`map_memory` on a given handle (a host pointer on success). -/
structure Device where
  allocate_result : Except Unit Nat
  map_result : Nat → Except Unit Nat

/-- `struct MemoryBlock` (src/lib.rs lines 140-146): device-memory handle,
size, and mapped host pointer (`none` models the null pointer stored when
the block is not mappable). -/
structure MemoryBlock where
  device_memory : Nat
  size : Nat
  mapped_ptr : Option Nat
deriving DecidableEq, Repr

/-- `MemoryBlock::new` (src/lib.rs lines 150-196), with the device calls it
performs returned as an explicit trace.  Allocation failure maps to
`OutOfMemory`; a map failure frees the fresh device memory and maps to
`FailedToMap`; otherwise the block records the handle, the requested size,
and the mapped pointer (null when not mappable). -/
def MemoryBlock.new (device : Device) (size memory_type_index : Nat) (is_mappable : Bool) :
    Except AllocatorError MemoryBlock × List DeviceOp :=
  match device.allocate_result with
  | Except.error _ =>
    (Except.error AllocatorError.OutOfMemory, [DeviceOp.allocate_memory size memory_type_index])
  | Except.ok device_memory =>
    if is_mappable then
      match device.map_result device_memory with
      | Except.error _ =>
        (Except.error AllocatorError.FailedToMap,
         [DeviceOp.allocate_memory size memory_type_index, DeviceOp.map_memory device_memory,
          DeviceOp.free_memory device_memory])
      | Except.ok mapped_ptr =>
        (Except.ok { device_memory := device_memory, size := size, mapped_ptr := some mapped_ptr },
         [DeviceOp.allocate_memory size memory_type_index, DeviceOp.map_memory device_memory])
    else
      (Except.ok { device_memory := device_memory, size := size, mapped_ptr := none },
       [DeviceOp.allocate_memory size memory_type_index])

/-- A map-provider that refuses every mapping request; used to exercise the
`FailedToMap` path of `MemoryBlock.new` on a concrete device. -/
def map_always_fails : Nat → Except Unit Nat :=
  fun _ => Except.error ()

/-- A concrete device whose allocation succeeds with handle `7` and whose
mapping always fails. -/
def device_map_fails : Device :=
  { allocate_result := Except.ok 7, map_result := map_always_fails }

/-- A borrowed byte slice produced by `std::slice::from_raw_parts[_mut]`,
modelled by its base pointer and length. -/
structure ByteSlice where
  base : Nat
  len : Nat
deriving DecidableEq, Repr

/-- `std::slice::from_raw_parts` / `from_raw_parts_mut`: a slice of `len`
bytes starting at pointer `p`. -/
def slice_from_raw_parts (p len : Nat) : ByteSlice :=
  { base := p, len := len }

/-- The data behind the `Allocation` trait's accessors (src/lib.rs lines
52-95): device memory handle, offset, size, and the optional mapped
pointer (`NonNull` on the Rust side, so `some p` models a non-null `p`). -/
structure Allocation where
  memory : Nat
  offset : Nat
  size : Nat
  mapped_ptr : Option Nat
deriving DecidableEq, Repr

/-- `Allocation::mapped_slice` (src/lib.rs lines 66-79): when the mapped
pointer exists, a slice of `size()` bytes starting at it. -/
def Allocation.mapped_slice (a : Allocation) : Option ByteSlice :=
  match a.mapped_ptr with
  | some p => some (slice_from_raw_parts p a.size)
  | none => none

/-- `Allocation::mapped_slice_mut` (src/lib.rs lines 81-94): when the
mapped pointer exists, a mutable slice of `size()` bytes starting at it. -/
def Allocation.mapped_slice_mut (a : Allocation) : Option ByteSlice :=
  match a.mapped_ptr with
  | some p => some (slice_from_raw_parts p a.size)
  | none => none

/-- A concrete two-type table whose only `DEVICE_LOCAL` types sit at
indices 0 and 1; used to witness the preferred-pass claim. -/
def props_two_device_local : PhysicalDeviceMemoryProperties :=
  { memory_type_count := 2,
    memory_types := [{ property_flags := DEVICE_LOCAL }, { property_flags := DEVICE_LOCAL }] }

/-- A concrete one-type table offering only `HOST_VISIBLE | HOST_COHERENT`
memory; its single type fails the `CpuToGpu` preferred set (which also
wants `DEVICE_LOCAL`) but passes the relaxed set. -/
def props_host_visible_coherent : PhysicalDeviceMemoryProperties :=
  { memory_type_count := 1,
    memory_types := [{ property_flags := Nat.lor HOST_VISIBLE HOST_COHERENT }] }

/-- If position `k` of the scanned list satisfies `type_ok` (at running
index `idx + k`) and every earlier position fails it, the scan stops at
`idx + k`. -/
theorem query_from_eq_some_of_least (types : List MemoryType) (bits req : Nat) :
    ∀ (idx k : Nat) (t : MemoryType),
      types[k]? = some t →
      type_ok bits req (idx + k) t = true →
      (∀ m u, m < k → types[m]? = some u → type_ok bits req (idx + m) u = false) →
      query_from types idx bits req = some (idx + k) := by
  induction types with
  | nil =>
    intro idx k t ht _ _
    simp at ht
  | cons hd tl ih =>
    intro idx k t ht hok hmin
    cases k with
    | zero =>
      simp at ht
      have hok0 : type_ok bits req idx hd = true := by
        rw [ht]
        simpa using hok
      simp [query_from, hok0]
    | succ k =>
      have hhd : type_ok bits req idx hd = false := by
        simpa using hmin 0 hd (Nat.succ_pos k) (by simp)
      have htl : tl[k]? = some t := by simpa using ht
      have hok1 : type_ok bits req (idx + 1 + k) t = true := by
        have h : idx + 1 + k = idx + (k + 1) := by omega
        rw [h]; exact hok
      have hmin1 : ∀ m u, m < k → tl[m]? = some u →
          type_ok bits req (idx + 1 + m) u = false := by
        intro m u hm hu
        have h : idx + 1 + m = idx + (m + 1) := by omega
        rw [h]
        exact hmin (m + 1) u (by omega) (by simpa using hu)
      have := ih (idx + 1) k t htl hok1 hmin1
      have harith : idx + 1 + k = idx + (k + 1) := by omega
      rw [harith] at this
      simpa [query_from, hhd] using this

/-- The scan returns `none` iff every position of the scanned list fails
`type_ok` at its running index. -/
theorem query_from_eq_none_iff (types : List MemoryType) (bits req : Nat) :
    ∀ idx, (query_from types idx bits req = none ↔
      ∀ m u, types[m]? = some u → type_ok bits req (idx + m) u = false) := by
  induction types with
  | nil =>
    intro idx
    simp [query_from]
  | cons hd tl ih =>
    intro idx
    constructor
    · intro h m u hu
      by_cases hhd : type_ok bits req idx hd = true
      · simp [query_from, hhd] at h
      · have hhd' : type_ok bits req idx hd = false := by
          simpa using hhd
        have htl : query_from tl (idx + 1) bits req = none := by
          simpa [query_from, hhd'] using h
        cases m with
        | zero =>
          have : hd = u := by simpa using hu
          subst this
          simpa using hhd'
        | succ m =>
          have := (ih (idx + 1)).mp htl m u (by simpa using hu)
          have harith : idx + 1 + m = idx + (m + 1) := by omega
          rwa [harith] at this
    · intro h
      have hhd : type_ok bits req idx hd = false := by
        simpa using h 0 hd (by simp)
      have htl : query_from tl (idx + 1) bits req = none := by
        refine (ih (idx + 1)).mpr ?_
        intro m u hu
        have harith : idx + 1 + m = idx + (m + 1) := by omega
        rw [harith]
        exact h (m + 1) u (by simpa using hu)
      simpa [query_from, hhd] using htl

/-- An element of `l.take n` exists at `i` exactly when `i < n` and the
element exists in `l` at `i`. -/
theorem take_getElem?_some (l : List MemoryType) (n i : Nat) (t : MemoryType)
    (h : (l.take n)[i]? = some t) : i < n ∧ l[i]? = some t := by
  by_cases hi : i < n
  · exact ⟨hi, by rwa [List.getElem?_take_of_lt hi] at h⟩
  · exfalso
    have hlen : (l.take n).length ≤ i := by
      simp only [List.length_take]
      omega
    rw [List.getElem?_eq_none hlen] at h
    simp at h

/-- `good_type` unpacked against the sliced table actually scanned by
`query_memory_type_index`. -/
theorem good_type_iff_take (props : PhysicalDeviceMemoryProperties) (bits req i : Nat) :
    good_type props bits req i = true ↔
      ∃ t, (props.memory_types.take props.memory_type_count)[i]? = some t ∧
        type_ok bits req i t = true := by
  constructor
  · intro h
    by_cases hc : i < props.memory_type_count
    · cases hu : props.memory_types[i]? with
      | none => simp [good_type, hc, hu] at h
      | some t =>
        refine ⟨t, ?_, ?_⟩
        · rw [List.getElem?_take_of_lt hc]; exact hu
        · simpa [good_type, hc, hu] using h
    · simp [good_type, hc] at h
  · rintro ⟨t, ht, hok⟩
    obtain ⟨hc, hu⟩ := take_getElem?_some _ _ _ _ ht
    simp [good_type, hc, hu, hok]

/-- A `good_type` failure at an index that exists in the table means the
scan predicate fails there. -/
theorem good_type_false_elim (props : PhysicalDeviceMemoryProperties) (bits req m : Nat)
    (u : MemoryType) (hm : m < props.memory_type_count)
    (hu : props.memory_types[m]? = some u)
    (h : good_type props bits req m = false) : type_ok bits req m u = false := by
  simpa [good_type, hm, hu] using h

/-- `query_memory_type_index` finds the least `good_type` index. -/
theorem query_eq_some_of_least (props : PhysicalDeviceMemoryProperties) (bits req i : Nat)
    (hi : good_type props bits req i = true)
    (hmin : ∀ j, j < i → good_type props bits req j = false) :
    query_memory_type_index props bits req = some i := by
  obtain ⟨t, ht, hok⟩ := (good_type_iff_take props bits req i).mp hi
  have := query_from_eq_some_of_least
    (props.memory_types.take props.memory_type_count) bits req 0 i t ht
    (by simpa using hok) ?_
  · simpa [query_memory_type_index] using this
  · intro m u hm hu
    obtain ⟨hc, hu'⟩ := take_getElem?_some _ _ _ _ hu
    have := good_type_false_elim props bits req m u hc hu' (hmin m hm)
    simpa using this

/-- `query_memory_type_index` returns `none` iff no index below the count
is a hit. -/
theorem query_eq_none_iff (props : PhysicalDeviceMemoryProperties) (bits req : Nat) :
    query_memory_type_index props bits req = none ↔
      ∀ i, i < props.memory_type_count → good_type props bits req i = false := by
  unfold query_memory_type_index
  rw [query_from_eq_none_iff]
  constructor
  · intro h i hc
    cases hu : props.memory_types[i]? with
    | none => simp [good_type, hu]
    | some t =>
      have htake : (props.memory_types.take props.memory_type_count)[i]? = some t := by
        rw [List.getElem?_take_of_lt hc]; exact hu
      have htype : type_ok bits req i t = false := by simpa using h i t htake
      simp [good_type, hu, htype]
  · intro h m u hm
    obtain ⟨hc, hu⟩ := take_getElem?_some _ _ _ _ hm
    have := good_type_false_elim props bits req m u hc hu (h m hc)
    simpa using this

/-- C1: if some memory type with index below `memory_type_count` has its
bit set in the permitted mask and property flags containing the preferred
set for the location, then `find_memory_type_index` returns `Ok` with the
lowest such index. -/
theorem find_memory_type_index_preferred (props : PhysicalDeviceMemoryProperties)
    (location : MemoryLocation) (bits i : Nat)
    (hi : good_type props bits (preferred_flags location) i = true)
    (hmin : ∀ j, j < i → good_type props bits (preferred_flags location) j = false) :
    find_memory_type_index props location bits = Except.ok i := by
  have hq := query_eq_some_of_least props bits (preferred_flags location) i hi hmin
  unfold find_memory_type_index
  simp [hq]

/-- Witness for C1: on a two-type all-`DEVICE_LOCAL` table with only bit 1
permitted, the `GpuOnly` lookup returns index 1. -/
theorem find_memory_type_index_preferred_witness :
    find_memory_type_index props_two_device_local MemoryLocation.GpuOnly 2 = Except.ok 1 := by
  exact find_memory_type_index_preferred props_two_device_local MemoryLocation.GpuOnly 2 1
    (by decide) (by decide)

/-- C2: `find_memory_type_index` returns `NoCompatibleMemoryTypeFound`
exactly when both the preferred pass and the relaxed pass find no hit; and
when the preferred pass finds none, it returns `Ok` with the lowest index
that is a hit for the relaxed flag set. -/
theorem find_memory_type_index_fallback (props : PhysicalDeviceMemoryProperties)
    (location : MemoryLocation) (bits : Nat) :
    (find_memory_type_index props location bits =
        Except.error AllocatorError.NoCompatibleMemoryTypeFound ↔
      ((∀ i, i < props.memory_type_count →
          good_type props bits (preferred_flags location) i = false) ∧
       (∀ i, i < props.memory_type_count →
          good_type props bits (relaxed_flags location) i = false))) ∧
    ((∀ i, i < props.memory_type_count →
        good_type props bits (preferred_flags location) i = false) →
      ∀ i, good_type props bits (relaxed_flags location) i = true →
        (∀ j, j < i → good_type props bits (relaxed_flags location) j = false) →
        find_memory_type_index props location bits = Except.ok i) := by
  constructor
  · constructor
    · intro h
      cases h1 : query_memory_type_index props bits (preferred_flags location) with
      | some x =>
        unfold find_memory_type_index at h
        simp [h1] at h
      | none =>
        cases h2 : query_memory_type_index props bits (relaxed_flags location) with
        | some x =>
          unfold find_memory_type_index at h
          simp [h1, h2] at h
        | none =>
          exact ⟨(query_eq_none_iff props bits (preferred_flags location)).mp h1,
                 (query_eq_none_iff props bits (relaxed_flags location)).mp h2⟩
    · rintro ⟨hp, hr⟩
      have h1 := (query_eq_none_iff props bits (preferred_flags location)).mpr hp
      have h2 := (query_eq_none_iff props bits (relaxed_flags location)).mpr hr
      unfold find_memory_type_index
      simp [h1, h2]
  · intro hp i hi hmin
    have h1 := (query_eq_none_iff props bits (preferred_flags location)).mpr hp
    have h2 := query_eq_some_of_least props bits (relaxed_flags location) i hi hmin
    unfold find_memory_type_index
    simp [h1, h2]

/-- Witness for C2: a single `HOST_VISIBLE | HOST_COHERENT` type fails the
`CpuToGpu` preferred pass but is picked up by the relaxed pass at index 0. -/
theorem find_memory_type_index_fallback_witness :
    find_memory_type_index props_host_visible_coherent MemoryLocation.CpuToGpu 1 =
      Except.ok 0 := by
  exact (find_memory_type_index_fallback props_host_visible_coherent
    MemoryLocation.CpuToGpu 1).2 (by decide) 0 (by decide) (by decide)

/-- The complement of a low-bit mask: `!(2^k - 1)` over 64 bits is
`2^64 - 2^k`. -/
theorem u64_not_two_pow_sub_one (k : Nat) (hk : k ≤ 64) :
    u64_not (2 ^ k - 1) = 2 ^ 64 - 2 ^ k := by
  have h1 : (2 : Nat) ^ k ≤ 2 ^ 64 := Nat.pow_le_pow_right (by norm_num) hk
  have h2 : (1 : Nat) ≤ 2 ^ k := Nat.one_le_two_pow
  unfold u64_not
  omega

/-- `2^64 - 2^k` is the mask of bits `k` through `63`. -/
theorem mask_decomp (k : Nat) (hk : k ≤ 64) :
    2 ^ 64 - 2 ^ k = 2 ^ k * (2 ^ (64 - k) - 1) := by
  have hsplit : (2 : Nat) ^ 64 = 2 ^ k * 2 ^ (64 - k) := by
    rw [← pow_add]
    congr 1
    omega
  have h2 : (1 : Nat) ≤ 2 ^ (64 - k) := Nat.one_le_two_pow
  have h3 : (0 : Nat) < 2 ^ k := Nat.two_pow_pos k
  rw [hsplit, Nat.mul_sub_one]

/-- Bitwise `and` of `2^k * q + r` (with `r` below bit `k` and `q` below
bit `m`) against the mask of bits `k` through `k + m - 1` keeps exactly the
high part `2^k * q`. -/
theorem land_split (q r k m : Nat) (hr : r < 2 ^ k) (hq : q < 2 ^ m) :
    (2 ^ k * q + r) &&& (2 ^ k * (2 ^ m - 1)) = 2 ^ k * q := by
  apply Nat.eq_of_testBit_eq
  intro j
  rw [Nat.testBit_land, Nat.testBit_mul_pow_two_add q hr j, Nat.testBit_mul_pow_two,
    Nat.testBit_mul_pow_two]
  by_cases hj : j < k
  · have hj2 : ¬ k ≤ j := by omega
    simp [hj, hj2]
  · have hj2 : k ≤ j := by omega
    simp only [hj, if_false, Nat.testBit_two_pow_sub_one, ge_iff_le, hj2, decide_True,
      Bool.true_and]
    by_cases hjm : j - k < m
    · simp [hjm]
    · have hqb : Nat.testBit q (j - k) = false := by
        apply Nat.testBit_lt_two_pow
        calc q < 2 ^ m := hq
          _ ≤ 2 ^ (j - k) := Nat.pow_le_pow_right (by norm_num) (by omega)
      simp [hjm, hqb]

/-- For a power-of-two alignment `2^k` and a 64-bit offset, `align_down`
clears the low `k` bits: it equals `2^k * (x / 2^k)`. -/
theorem align_down_eq (x k : Nat) (hx : x < 2 ^ 64) (hk : k ≤ 64) :
    align_down x (2 ^ k) = 2 ^ k * (x / 2 ^ k) := by
  unfold align_down
  rw [u64_not_two_pow_sub_one k hk, mask_decomp k hk]
  have hr : x % 2 ^ k < 2 ^ k := Nat.mod_lt _ (Nat.two_pow_pos k)
  have hq : x / 2 ^ k < 2 ^ (64 - k) := by
    rw [Nat.div_lt_iff_lt_mul (Nat.two_pow_pos k)]
    calc x < 2 ^ 64 := hx
      _ = 2 ^ (64 - k) * 2 ^ k := by rw [← pow_add]; congr 1; omega
  have hsplit := land_split (x / 2 ^ k) (x % 2 ^ k) k (64 - k) hr hq
  have hx_eq : 2 ^ k * (x / 2 ^ k) + x % 2 ^ k = x := Nat.div_add_mod x (2 ^ k)
  rw [hx_eq] at hsplit
  exact hsplit

/-- For a power-of-two alignment, `align_up x a = align_down (x + a - 1) a`
rounds up to the next multiple: it equals `2^k * ((x + 2^k - 1) / 2^k)`. -/
theorem align_up_eq (x k : Nat) (hx : x + (2 ^ k - 1) < 2 ^ 64) (hk : k ≤ 64) :
    align_up x (2 ^ k) = 2 ^ k * ((x + (2 ^ k - 1)) / 2 ^ k) := by
  unfold align_up
  have := align_down_eq (x + (2 ^ k - 1)) k hx hk
  unfold align_down at this
  exact this

/-- C5: for a power-of-two alignment `a = 2^k` (with `x + (a - 1)` in the
64-bit range), `align_up x a` is the smallest multiple of `a` that is at
least `x`, and `align_down x a` is the largest multiple of `a` that is at
most `x`. -/
theorem align_up_down_spec (x a k : Nat) (ha : a = 2 ^ k) (hk : k ≤ 64)
    (hov : x + (a - 1) < 2 ^ 64) :
    (align_up x a % a = 0 ∧ x ≤ align_up x a ∧
      ∀ m, m % a = 0 → x ≤ m → align_up x a ≤ m) ∧
    (align_down x a % a = 0 ∧ align_down x a ≤ x ∧
      ∀ m, m % a = 0 → m ≤ x → m ≤ align_down x a) := by
  subst ha
  have hx : x < 2 ^ 64 := by omega
  have hpos : 0 < 2 ^ k := Nat.two_pow_pos k
  have hup := align_up_eq x k hov hk
  have hdown := align_down_eq x k hx hk
  refine ⟨⟨?_, ?_, ?_⟩, ⟨?_, ?_, ?_⟩⟩
  · rw [hup]
    exact Nat.mul_mod_right _ _
  · rw [hup]
    have h1 : 2 ^ k * ((x + (2 ^ k - 1)) / 2 ^ k) + (x + (2 ^ k - 1)) % 2 ^ k
        = x + (2 ^ k - 1) := Nat.div_add_mod _ _
    have h2 : (x + (2 ^ k - 1)) % 2 ^ k < 2 ^ k := Nat.mod_lt _ hpos
    omega
  · intro m hm hxm
    rw [hup]
    have hmq : 2 ^ k * (m / 2 ^ k) = m := Nat.mul_div_cancel' (Nat.dvd_of_mod_eq_zero hm)
    have hdivle : (x + (2 ^ k - 1)) / 2 ^ k ≤ m / 2 ^ k := by
      have : x + (2 ^ k - 1) < (m / 2 ^ k + 1) * 2 ^ k := by
        have : (m / 2 ^ k + 1) * 2 ^ k = 2 ^ k * (m / 2 ^ k) + 2 ^ k := by ring
        omega
      have := (Nat.div_lt_iff_lt_mul hpos).mpr this
      omega
    calc 2 ^ k * ((x + (2 ^ k - 1)) / 2 ^ k) ≤ 2 ^ k * (m / 2 ^ k) :=
          Nat.mul_le_mul_left _ hdivle
      _ = m := hmq
  · rw [hdown]
    exact Nat.mul_mod_right _ _
  · rw [hdown]
    have := Nat.div_mul_le_self x (2 ^ k)
    calc 2 ^ k * (x / 2 ^ k) = x / 2 ^ k * 2 ^ k := by ring
      _ ≤ x := this
  · intro m hm hmx
    rw [hdown]
    have hmq : 2 ^ k * (m / 2 ^ k) = m := Nat.mul_div_cancel' (Nat.dvd_of_mod_eq_zero hm)
    have hdivle : m / 2 ^ k ≤ x / 2 ^ k := Nat.div_le_div_right hmx
    calc m = 2 ^ k * (m / 2 ^ k) := hmq.symm
      _ ≤ 2 ^ k * (x / 2 ^ k) := Nat.mul_le_mul_left _ hdivle

/-- Witness for C5: with `x = 5` and `a = 4 = 2^2`, `align_up` yields a
multiple of 4 at least 5 and `align_down` a multiple of 4 at most 5. -/
theorem align_up_down_spec_witness :
    align_up 5 4 % 4 = 0 ∧ 5 ≤ align_up 5 4 ∧
    align_down 5 4 % 4 = 0 ∧ align_down 5 4 ≤ 5 := by
  have h := align_up_down_spec 5 4 2 (by norm_num) (by norm_num) (by norm_num)
  exact ⟨h.1.1, h.1.2.1, h.2.1, h.2.2.1⟩

/-- C4: for a preceding span of size at least 1 (no `u64` overflow) and a
power-of-two page size, `is_on_same_page` is true iff the page of the
span's last byte `offset_lhs + size_lhs - 1` equals the page of
`offset_rhs`, both as an `align_down` equation and as equality of the
page indices (quotients by the page size). -/
theorem is_on_same_page_spec (offset_lhs size_lhs offset_rhs page_size k : Nat)
    (hsize : 1 ≤ size_lhs) (hov : offset_lhs + size_lhs < 2 ^ 64)
    (hrhs : offset_rhs < 2 ^ 64) (hp : page_size = 2 ^ k) (hk : k ≤ 64) :
    (is_on_same_page offset_lhs size_lhs offset_rhs page_size = true ↔
      align_down (offset_lhs + size_lhs - 1) page_size =
        align_down offset_rhs page_size) ∧
    (align_down (offset_lhs + size_lhs - 1) page_size =
        align_down offset_rhs page_size ↔
      (offset_lhs + size_lhs - 1) / page_size = offset_rhs / page_size) := by
  constructor
  · have hsz : ¬ (offset_lhs = 0 ∧ size_lhs = 0) := by omega
    simp [is_on_same_page, hsz]
  · subst hp
    rw [align_down_eq _ k (by omega) hk, align_down_eq _ k hrhs hk]
    constructor
    · intro h
      exact Nat.eq_of_mul_eq_mul_left (Nat.two_pow_pos k) h
    · intro h
      rw [h]

/-- Witness for C4: the 3-byte span at offset 5 ends at byte 7, which
shares the 4-byte page `[4, 8)` with offset 6. -/
theorem is_on_same_page_spec_witness :
    is_on_same_page 5 3 6 4 = true := by
  have h := is_on_same_page_spec 5 3 6 4 2 (by norm_num) (by norm_num)
    (by norm_num) (by norm_num) (by norm_num)
  exact h.1.mpr (h.2.mpr (by norm_num))

/-- C8: `has_granularity_conflict` applied to the is-linear predicates of
two allocation types returns true iff the predicates disagree, equivalently
iff exactly one of the two types is `OptimalImage`. -/
theorem has_granularity_conflict_iff (a b : AllocationType) :
    (has_granularity_conflict a.is_linear b.is_linear = true ↔
      a.is_linear ≠ b.is_linear) ∧
    (has_granularity_conflict a.is_linear b.is_linear = true ↔
      ((a = AllocationType.OptimalImage ∧ b ≠ AllocationType.OptimalImage) ∨
       (a ≠ AllocationType.OptimalImage ∧ b = AllocationType.OptimalImage))) := by
  cases a <;> cases b <;> exact ⟨by decide, by decide⟩

/-- C3 counterexample: with `offset_lhs = 1`, `size_lhs = 0`,
`offset_rhs = 0` and the power-of-two page size `1 = 2^0`,
`is_on_same_page` returns `true`, so a zero-size preceding span does not
always yield `false`: the early return in the source requires
`offset_lhs == 0 && size_lhs == 0`, not merely `size_lhs == 0`. -/
theorem is_on_same_page_zero_size_cex :
    is_on_same_page 1 0 0 1 = true ∧ (1 : Nat) = 2 ^ 0 := by
  exact ⟨by decide, rfl⟩

/-- C3 amended: when both `offset_lhs = 0` and `size_lhs = 0`,
`is_on_same_page` returns `false` for every `offset_rhs` and every
`page_size`. -/
theorem is_on_same_page_zero_offset_zero_size (offset_rhs page_size : Nat) :
    is_on_same_page 0 0 offset_rhs page_size = false := rfl

/-- C9: `mapped_slice` and `mapped_slice_mut` return `some` exactly when
`mapped_ptr` does, in which case both return a view of exactly `size`
bytes starting at the mapped pointer; when `mapped_ptr` is `none`, both
return `none`. -/
theorem mapped_slice_spec (a : Allocation) :
    (a.mapped_slice.isSome = a.mapped_ptr.isSome ∧
     a.mapped_slice_mut.isSome = a.mapped_ptr.isSome) ∧
    (∀ p, a.mapped_ptr = some p →
      a.mapped_slice = some (slice_from_raw_parts p a.size) ∧
      a.mapped_slice_mut = some (slice_from_raw_parts p a.size)) ∧
    (∀ s, a.mapped_slice = some s → s.len = a.size) ∧
    (a.mapped_ptr = none → a.mapped_slice = none ∧ a.mapped_slice_mut = none) := by
  rcases a with ⟨m, o, sz, mp⟩
  cases mp <;>
    simp [Allocation.mapped_slice, Allocation.mapped_slice_mut, slice_from_raw_parts]

/-- Witness for C9: on an allocation of size 16 mapped at pointer 100,
`mapped_slice` returns the 16-byte view based at 100. -/
theorem mapped_slice_spec_witness :
    Allocation.mapped_slice { memory := 0, offset := 0, size := 16, mapped_ptr := some 100 } =
      some (slice_from_raw_parts 100 16) := by
  exact ((mapped_slice_spec
    { memory := 0, offset := 0, size := 16, mapped_ptr := some 100 }).2.1 100 rfl).1

/-- C7 (code bug): the allocate-info built by `MemoryBlock::new` omits the
`DEVICE_ADDRESS` flag even when the `vk-buffer-device-address` build
feature is enabled (and also, as intended, when it is not), because the
source's `cfg!(features = "vk-buffer-device-address")` tests the unknown
cfg key `features` instead of `feature` and is therefore always false. -/
theorem build_memory_allocate_info_flag_omitted :
    (build_memory_allocate_info 1 0 true).device_address_flag = false ∧
    (build_memory_allocate_info 1 0 false).device_address_flag = false :=
  ⟨rfl, rfl⟩

/-- C10: for `GpuOnly` the relaxed flag set of the second pass equals the
preferred flag set of the first pass, so `find_memory_type_index` coincides
with a single preferred-set scan. -/
theorem find_memory_type_index_gpu_only_single_pass
    (props : PhysicalDeviceMemoryProperties) (bits : Nat) :
    relaxed_flags MemoryLocation.GpuOnly = preferred_flags MemoryLocation.GpuOnly ∧
    find_memory_type_index props MemoryLocation.GpuOnly bits =
      single_pass_result props bits (preferred_flags MemoryLocation.GpuOnly) := by
  refine ⟨rfl, ?_⟩
  unfold find_memory_type_index single_pass_result
  cases h : query_memory_type_index props bits (preferred_flags MemoryLocation.GpuOnly) <;>
    simp only [preferred_flags, relaxed_flags] at h ⊢ <;> simp [h]

/-- C6: `MemoryBlock::new` returns `OutOfMemory` when the device rejects
the allocation; when the allocation succeeds, the block is mappable, and
mapping fails, it frees the just-allocated device memory and returns
`FailedToMap`, its device-call trace being exactly allocate, map, free (no
partial side effect remains); otherwise it returns a block recording the
requested size, the fresh handle, and the mapped pointer (null when not
mappable). -/
theorem MemoryBlock_new_spec (device : Device) (size memory_type_index : Nat)
    (is_mappable : Bool) :
    (∀ e, device.allocate_result = Except.error e →
      MemoryBlock.new device size memory_type_index is_mappable =
        (Except.error AllocatorError.OutOfMemory,
         [DeviceOp.allocate_memory size memory_type_index])) ∧
    (∀ m e, device.allocate_result = Except.ok m → is_mappable = true →
      device.map_result m = Except.error e →
      MemoryBlock.new device size memory_type_index is_mappable =
        (Except.error AllocatorError.FailedToMap,
         [DeviceOp.allocate_memory size memory_type_index, DeviceOp.map_memory m,
          DeviceOp.free_memory m])) ∧
    (∀ m, device.allocate_result = Except.ok m →
      (is_mappable = false →
        MemoryBlock.new device size memory_type_index is_mappable =
          (Except.ok { device_memory := m, size := size, mapped_ptr := none },
           [DeviceOp.allocate_memory size memory_type_index])) ∧
      (∀ p, is_mappable = true → device.map_result m = Except.ok p →
        MemoryBlock.new device size memory_type_index is_mappable =
          (Except.ok { device_memory := m, size := size, mapped_ptr := some p },
           [DeviceOp.allocate_memory size memory_type_index, DeviceOp.map_memory m]))) := by
  refine ⟨?_, ?_, ?_⟩
  · intro e he
    simp [MemoryBlock.new, he]
  · intro m e hm hmap hfail
    simp [MemoryBlock.new, hm, hmap, hfail]
  · intro m hm
    constructor
    · intro hmap
      simp [MemoryBlock.new, hm, hmap]
    · intro p hmap hok
      simp [MemoryBlock.new, hm, hmap, hok]

/-- Witness for C6: on a concrete device whose allocation yields handle 7
and whose mapping fails, `MemoryBlock::new` with `is_mappable = true`
returns `FailedToMap` after allocating, attempting the map, and freeing
handle 7. -/
theorem MemoryBlock_new_spec_witness :
    MemoryBlock.new device_map_fails 5 3 true =
      (Except.error AllocatorError.FailedToMap,
       [DeviceOp.allocate_memory 5 3, DeviceOp.map_memory 7, DeviceOp.free_memory 7]) := by
  exact (MemoryBlock_new_spec device_map_fails 5 3 true).2.1 7 () rfl rfl rfl

end AshAlloc
